import Mathlib

/-!
Verification of the aegis video-surveillance core against its design spec.

The development shallowly embeds the parts of the code that the spec's
claims are about:

* `server_node/webrtc/receiver.py` — the leaky-bucket frame intake
  (`VideoReceiver._drain_buffer`);
* `server_node/core/frame_processor.py` — the detection/tracking pipeline
  (`FrameProcessor.process`, `FrameProcessor._process_active_tracks`);
* `server_node/core/database.py` — the persisted event records
  (`DatabaseManager.create_event`, `DatabaseManager.update_event`);
* `server_node/core/notifications.py` — the alert throttler
  (`NotificationManager.send_alert`);
* `server_node/core/hls_recorder.py` — the recording supervisor
  (`HLSRecorder.start`, `HLSRecorder.stop`, `HLSRecorder.push_frame`);
* `camera_node/main.py` — the edge resilience loop (`connect`, `run`).

Times and confidences are modelled as rationals, frames by their relevant
observable (for the DDIL sentinel: the count of foreground pixels of the
downsampled 320x240 frame), and I/O effects (DB rows, log lines, encoder
subprocesses) as explicit state.  Exception flow is modelled by `Except`:
a Python `try/except Exception` region never yields `.error`, code outside
any such region propagates `.error`.
-/

namespace Aegis

/-! ## Leaky-bucket frame intake (`receiver.py`, `VideoReceiver._drain_buffer`) -/

/-- `VideoReceiver._drain_buffer`: `frame = await self.track.recv()` first
blocks until one frame is available (modelled by the required argument
`first`); then the loop `await asyncio.wait_for(self.track.recv(),
timeout=0.001)` replaces `frame` with each further frame that arrives inside
the 1ms grace window (`graceArrivals`, in arrival order) until the timeout
breaks the loop, and the function returns the last frame kept.  All
intermediate frames are dropped without further processing. -/
def drainBuffer {α : Type} (first : α) (graceArrivals : List α) : α :=
  graceArrivals.foldl (fun _ newer => newer) first

/-! ## Detection dispatch (`frame_processor.py`, `FrameProcessor.process`) -/

/-- `FrameProcessor.INFERENCE_INTERVAL`: a detection job may be submitted
only on every 3rd frame. -/
def INFERENCE_INTERVAL : Nat := 3

/-- The inference-dispatch state of one camera's `FrameProcessor`:
`frameCount` is `self.frame_count`, `inferenceFuture` the single
`self.inference_future` slot (`some j` = job `j` outstanding on the
one-worker executor), `nextJobId` a supply of fresh job identities, and
`hasModel` the truthiness of `self.model` (the YOLO weights loaded). -/
structure ProcState where
  frameCount : Nat
  inferenceFuture : Option Nat
  nextJobId : Nat
  hasModel : Bool
deriving Repr, DecidableEq

/-- The result-collection step at the top of `FrameProcessor.process`: if a
future is in the slot and `done()` holds, its result is collected (or its
exception caught and logged) and the slot is cleared either way
(`self.inference_future = None` on both paths); a pending future stays. -/
def clearIfDone (fo : Option Nat) (futureDone : Bool) : Option Nat :=
  match fo with
  | some j => if futureDone then none else some j
  | none => none

/-- One `FrameProcessor.process` call, restricted to the inference-dispatch
logic.  `futureDone` is the oracle for `self.inference_future.done()` on
this frame.  In order, as in the source: `self.frame_count += 1`; the
collection step (`clearIfDone`); finally a new job is submitted iff
`self.frame_count % INFERENCE_INTERVAL == 0 and self.model and
self.inference_future is None`.  Returns the new state and whether a job
was submitted this call. -/
def process (s : ProcState) (futureDone : Bool) : ProcState × Bool :=
  if (s.frameCount + 1) % INFERENCE_INTERVAL = 0 ∧ s.hasModel = true ∧
      clearIfDone s.inferenceFuture futureDone = none then
    (⟨s.frameCount + 1, some s.nextJobId, s.nextJobId + 1, s.hasModel⟩, true)
  else
    (⟨s.frameCount + 1, clearIfDone s.inferenceFuture futureDone,
      s.nextJobId, s.hasModel⟩, false)

/-- A sequence of `process` calls, one oracle bit per frame. -/
def processTrace (s : ProcState) : List Bool → ProcState
  | [] => s
  | d :: ds => processTrace (process s d).1 ds

/-- The event the at-most-one-in-flight property forbids: this `process`
call submits a new job (`(process s d).2`) while the previous job is still
outstanding — present in the slot (`s.inferenceFuture.isSome`) and not yet
completed (`!d`). -/
def submitWhileOutstanding (s : ProcState) (d : Bool) : Bool :=
  (process s d).2 && s.inferenceFuture.isSome && !d

/-! ## Track identifiers and persisted records
(`frame_processor.py`, `_process_active_tracks`; `database.py`) -/

/-- One digit-run of a Python integer literal: digits with single
underscores allowed between digits (`int("1_0") == 10`), accumulating the
value; `lastDigit` records whether the previous character was a digit (the
run must start and end with a digit, and underscores may not repeat). -/
def parseDigitsAux : Nat → Bool → List Char → Option Nat
  | acc, lastDigit, [] => if lastDigit then some acc else none
  | acc, lastDigit, c :: cs =>
    if c.isDigit then parseDigitsAux (10 * acc + (c.toNat - 48)) true cs
    else if c = '_' ∧ lastDigit then parseDigitsAux acc false cs
    else none

/-- Python `int(token)` on a string: strip surrounding whitespace, allow one
optional sign, then a digit run; `none` when Python would raise
`ValueError`. -/
def pythonInt? (s : String) : Option ℤ :=
  let cs := ((s.toList.dropWhile Char.isWhitespace).reverse.dropWhile
    Char.isWhitespace).reverse
  match cs with
  | '+' :: rest => (parseDigitsAux 0 false rest).map (fun n => (n : ℤ))
  | '-' :: rest => (parseDigitsAux 0 false rest).map (fun n => -(n : ℤ))
  | rest => (parseDigitsAux 0 false rest).map (fun n => (n : ℤ))

/-- The track-token-to-DB-key conversion of `_process_active_tracks`:
`try: db_track_id = int(track_id) except: db_track_id = hash(track_id) %
100000`.  Python's builtin `hash` is an integer-valued function of the
token, abstracted here as the parameter `h` (every property proved below
holds for any such function); Python's `%` on a positive modulus is floored
and hence non-negative, which `Int.emod` matches. -/
def dbTrackId (h : String → ℤ) (token : String) : ℤ :=
  match pythonInt? token with
  | some n => n
  | none => (h token) % 100000

/-- The in-memory per-track entry `self.active_tracks[track_id]` of
`FrameProcessor`: `row_id`, `label`, `max_conf`, `last_seen`. -/
structure TrackMem where
  rowId : Nat
  label : String
  maxConf : ℚ
  lastSeen : ℚ
deriving Repr, DecidableEq

/-- A row of the `events` table as `database.py` writes it (the
`snapshot_path` and `embedding` columns carry no tracked state and are
elided). -/
structure EventRecord where
  trackId : ℤ
  label : String
  cameraId : String
  startTime : ℚ
  lastSeen : ℚ
  maxConf : ℚ
deriving Repr, DecidableEq

/-- `DatabaseManager.update_event`: `UPDATE events SET last_seen = ?,
max_conf = MAX(max_conf, ?) WHERE id = ?`. -/
def updateEvent (rows : List (Nat × EventRecord)) (rowId : Nat)
    (lastSeen conf : ℚ) : List (Nat × EventRecord) :=
  rows.map (fun r =>
    if r.1 = rowId then
      (r.1, { r.2 with lastSeen := lastSeen, maxConf := max r.2.maxConf conf })
    else r)

/-- Replace the binding of key `k` in an association list (a Python dict
assignment `m[k] = v`). -/
def setAssoc {β : Type} (k : String) (v : β) (m : List (String × β)) :
    List (String × β) :=
  (k, v) :: m.filter (fun p => p.1 != k)

/-- The tracking-lifecycle state of one camera's `FrameProcessor` together
with the `events` table: `activeTracks` is `self.active_tracks`, `dbRows`
the persisted rows keyed by their SQLite row id, `nextRowId` the next
`lastrowid`. -/
structure PipelineState where
  cameraId : String
  activeTracks : List (String × TrackMem)
  dbRows : List (Nat × EventRecord)
  nextRowId : Nat
deriving Repr, DecidableEq

/-- The per-track body of `_process_active_tracks` for one confirmed track
(`track_id`, its detection `label` and `conf`, at processing time `now`).
New track (`track_id not in self.active_tracks`): one `create_event` row is
inserted with `start_time = last_seen = now` and `max_conf = conf`, and the
in-memory entry is created with the returned row id (the snapshot write and
the `send_alert` call, modelled separately, do not touch this state).
Existing track: `last_seen` is set to `now` and an `"unknown"` label is
upgraded; the `db_manager.update_event(...)` call on this branch is
commented out in the source (frame_processor.py line 203), so neither the
DB row nor the in-memory `max_conf` is touched. -/
def processConfirmedTrack (h : String → ℤ) (st : PipelineState)
    (trackId lbl : String) (conf now : ℚ) : PipelineState :=
  match st.activeTracks.lookup trackId with
  | none =>
    let row : EventRecord :=
      ⟨dbTrackId h trackId, lbl, st.cameraId, now, now, conf⟩
    { st with
      activeTracks :=
        setAssoc trackId ⟨st.nextRowId, lbl, conf, now⟩ st.activeTracks
      dbRows := st.dbRows ++ [(st.nextRowId, row)]
      nextRowId := st.nextRowId + 1 }
  | some mem =>
    let mem2 : TrackMem :=
      { mem with
        lastSeen := now
        label := if lbl ≠ "unknown" ∧ mem.label = "unknown" then lbl
                 else mem.label }
    { st with activeTracks := setAssoc trackId mem2 st.activeTracks }

/-- The staleness test of the cleanup loop at the end of
`_process_active_tracks`: `now - data['last_seen'] > 10.0`. -/
def isStale (now : ℚ) (m : TrackMem) : Bool :=
  decide (now - m.lastSeen > 10)

/-- The cleanup pass: every entry collected into `stale_ids` — those with
`now - last_seen > 10.0` — is deleted from `self.active_tracks`; the rest
are kept unchanged. -/
def cleanupStale (now : ℚ) (tracks : List (String × TrackMem)) :
    List (String × TrackMem) :=
  tracks.filter (fun p => ! isStale now p.2)

/-- One full `_process_active_tracks` pass at processing time `now` over the
confirmed tracks of this frame (each a `(track_id, label, conf)` triple),
followed by the stale-track cleanup.  The source runs this only on frames
where new detections produced tracker output. -/
def lifecyclePass (h : String → ℤ) (st : PipelineState)
    (dets : List (String × String × ℚ)) (now : ℚ) : PipelineState :=
  let st2 := dets.foldl
    (fun acc d => processConfirmedTrack h acc d.1 d.2.1 d.2.2 now) st
  { st2 with activeTracks := cleanupStale now st2.activeTracks }

/-- A fresh pipeline for camera "0": no active tracks, empty events table,
SQLite row ids starting at 1. -/
def initialPipeline : PipelineState := ⟨"0", [], [], 1⟩

/-- A stand-in for Python's builtin `hash` in concrete scenarios; the hash
is only consulted for tokens that do not parse as integers, which the
scenarios below never use. -/
def zeroHash : String → ℤ := fun _ => 0

/-! ## Alert throttler (`notifications.py`, `NotificationManager.send_alert`) -/

/-- The `NotificationManager` state: `enabled` and `webhookUrl` as
configured, `cooldownSeconds` (`self.cooldown_seconds`), and
`self.last_alerts`, the label-to-last-fired-timestamp dict. -/
structure NotifState where
  enabled : Bool
  webhookUrl : String
  cooldownSeconds : ℚ
  lastAlerts : List (String × ℚ)
deriving Repr, DecidableEq

/-- `self.last_alerts.get(label, 0)`. -/
def lastAlertTime (st : NotifState) (lbl : String) : ℚ :=
  match st.lastAlerts.lookup lbl with
  | some t => t
  | none => 0

/-- `NotificationManager.send_alert(label, confidence, camera_id, frame)` at
wall-clock time `now`: returns without action when disabled or no webhook
URL is set (`not self.enabled or not self.webhook_url`), or when `now -
last_time < self.cooldown_seconds`; otherwise records `self.last_alerts
[label] = now` and dispatches the alert (fire-and-forget thread).  Returns
the new state and whether an alert was dispatched.  Note that the camera id
and the confidence reach only the dispatched payload: the cooldown lookup
keys on the label alone.  The second component is the dispatched payload
(label, confidence, camera id), `none` when no alert was sent. -/
def sendAlert (st : NotifState) (lbl : String) (conf : ℚ) (cameraId : String)
    (now : ℚ) : NotifState × Option (String × ℚ × String) :=
  if st.enabled = false ∨ st.webhookUrl = "" then (st, none)
  else if now - lastAlertTime st lbl < st.cooldownSeconds then (st, none)
  else ({ st with lastAlerts := setAssoc lbl now st.lastAlerts },
        some (lbl, conf, cameraId))

/-! ## Recording supervisor (`hls_recorder.py`, `HLSRecorder`) -/

/-- The `HLSRecorder` state: the flags `recording` and `stopping`, the
encoder subprocess slot `self.process` (`some pid` = a live FFmpeg child),
a supply of fresh subprocess identities, and the pids of the subprocesses
that have been terminated so far. -/
structure RecorderState where
  cameraId : String
  recording : Bool
  stopping : Bool
  process : Option Nat
  nextPid : Nat
  terminated : List Nat
deriving Repr, DecidableEq

/-- `HLSRecorder.stop`: sets `self.stopping = True` (commented in the
source as preventing auto-restart), clears `self.recording`, terminates the
subprocess (waiting, then killing) and clears the slot.  Nothing ever
resets `stopping` to `False` afterwards. -/
def recorderStop (s : RecorderState) : RecorderState :=
  { s with
    stopping := true
    recording := false
    process := none
    terminated :=
      match s.process with
      | some p => s.terminated ++ [p]
      | none => s.terminated }

/-- `HLSRecorder.start`: returns immediately when already recording;
otherwise launches a fresh FFmpeg subprocess for the same camera and sets
`self.recording = True`.  It does not touch `self.stopping`. -/
def recorderStart (s : RecorderState) : RecorderState :=
  if s.recording then s
  else { s with recording := true, process := some s.nextPid,
                nextPid := s.nextPid + 1 }

/-- What the raw-frame write to the encoder's stdin pipe does this call. -/
inductive PipeEvent
  /-- the write and flush succeed -/
  | ok
  /-- the write raises `BrokenPipeError` (or `ValueError`) -/
  | brokenPipe
  /-- the write raises some other exception -/
  | otherError
deriving Repr, DecidableEq

/-- `HLSRecorder.push_frame(frame)`: returns at once when `not
self.recording or self.process is None`; otherwise the frame is resized to
the encoder's input resolution if needed and its bytes written and flushed.
On `BrokenPipeError`/`ValueError`, if the recorder is not deliberately
stopping it logs, calls `self.stop()` and then `self.start()`; with
`stopping` set the failure is swallowed.  Any other exception is only
logged.  Returns the new state and whether the frame's bytes were written
to the pipe. -/
def pushFrame (s : RecorderState) (ev : PipeEvent) : RecorderState × Bool :=
  if s.recording = false ∨ s.process = none then (s, false)
  else
    match ev with
    | .ok => (s, true)
    | .brokenPipe =>
      if s.stopping = false then (recorderStart (recorderStop s), false)
      else (s, false)
    | .otherError => (s, false)

/-- A freshly constructed and started recorder for camera "0": recording
with subprocess pid 1, not stopping. -/
def recorder0 : RecorderState :=
  recorderStart ⟨"0", false, false, none, 1, []⟩

/-! ## Edge resilience loop (`camera_node/main.py`, `connect` and `run`) -/

/-- `pc.connectionState` of the aiortc peer connection as `run()` reads
it. -/
inductive ConnState
  | new
  | connecting
  | connected
  | failed
  | closed
deriving Repr, DecidableEq

/-- `run()` takes the reconnect/DDIL branch exactly when `state in
("failed", "closed", "new")`; any other state only sleeps one second. -/
def isDisconnected : ConnState → Bool
  | .new => true
  | .failed => true
  | .closed => true
  | _ => false

/-- How one signaling attempt (`connect(pc, track)`) turns out.  The calls
`pc.createOffer()` and `pc.setLocalDescription(offer)` run before the
function's `try` block; the HTTP post, the answer decoding and
`pc.setRemoteDescription(answer)` run inside `try ... except Exception`. -/
inductive SignalOutcome
  /-- HTTP 200 and the answer applied: `connect` returns `True` -/
  | accepted
  /-- the server answered non-200: logged, `connect` returns `False` -/
  | non200
  /-- timeout, network error, bad answer or a failing
  `setRemoteDescription`, raised inside the `try`: caught and logged,
  `connect` returns `False` -/
  | requestError
  /-- `createOffer` or `setLocalDescription` raised, outside any `try` -/
  | localError
deriving Repr, DecidableEq

/-- `connect(pc, track)` as exception flow: `.error ()` means an exception
escaped the function. -/
def connectResult : SignalOutcome → Except Unit Bool
  | .accepted => .ok true
  | .non200 => .ok false
  | .requestError => .ok false
  | .localError => .error ()

/-- The motion ratio the DDIL sentinel computes: `np.count_nonzero(thresh)
/ (320 * 240)` over the thresholded foreground mask of the frame
downsampled to 320x240; `fgPixels` is that nonzero count. -/
def motionRatio (fgPixels : Nat) : ℚ :=
  (fgPixels : ℚ) / (320 * 240)

/-- The body of the DDIL sentinel block (main.py, the `if not success`
branch): read one frame straight from the camera, downsample, background
subtraction, threshold, and append one timestamped buffered-motion line to
`pending.txt` iff `motion_ratio > 0.05`.  The input is `none` when the
capture is closed, the read fails, or one of the cv2 calls raises (the
whole block sits in `try ... except Exception`, so any of those is caught);
`some fg` is a processed frame with `fg` foreground pixels.  Returns the
number of lines appended. -/
def ddilMotionCheck (frame : Option Nat) : Nat :=
  match frame with
  | some fg => if motionRatio fg > 5 / 100 then 1 else 0
  | none => 0

/-- The observable effects of one iteration of `run()`'s while loop:
how many times the DDIL sentinel block was entered, how many
buffered-motion lines were appended, and whether the signaling attempt
reconnected. -/
structure IterEffects where
  motionChecks : Nat
  bufferedLines : Nat
  reconnected : Bool
deriving Repr, DecidableEq

/-- One iteration of the resilience control loop in `run()`: in a
disconnected state it attempts `connect`; on `False` it runs exactly one
DDIL sentinel pass and then sleeps the fixed 5s backoff; on `True` it only
logs.  In a connected/connecting state it sleeps one second and re-checks.
`.error ()` means an exception escaped the iteration — the `while True`
body has no exception handler of its own (only `KeyboardInterrupt` is
caught outside the loop), so such an exception terminates the loop. -/
def loopIteration (st : ConnState) (sig : SignalOutcome)
    (frame : Option Nat) : Except Unit IterEffects :=
  if isDisconnected st then
    match connectResult sig with
    | .error e => .error e
    | .ok true => .ok ⟨0, 0, true⟩
    | .ok false => .ok ⟨1, ddilMotionCheck frame, false⟩
  else
    .ok ⟨0, 0, false⟩

/-- Whether the loop survives this iteration (no exception escaped). -/
def iterationSurvives (st : ConnState) (sig : SignalOutcome)
    (frame : Option Nat) : Bool :=
  match loopIteration st sig frame with
  | .ok _ => true
  | .error _ => false

/-! ## Theorems -/

/-- A dict assignment makes the assigned key's lookup return the assigned
value. -/
theorem lookup_setAssoc_self {β : Type} (k : String) (v : β)
    (m : List (String × β)) : (setAssoc k v m).lookup k = some v := by
  simp [setAssoc, List.lookup]

/-- After recording a firing time for a label, the cooldown lookup for that
label returns that time. -/
theorem lastAlertTime_after_set (e : Bool) (u : String) (cd : ℚ)
    (m : List (String × ℚ)) (lbl : String) (t : ℚ) :
    lastAlertTime ⟨e, u, cd, setAssoc lbl t m⟩ lbl = t := by
  simp [lastAlertTime, lookup_setAssoc_self]

/-- Claim C3: a single drain call blocks until one frame is available
(modelled by `first`), then returns exactly the last frame received before
the grace window elapses — the last element of the nonempty arrival
sequence; every intermediate frame is discarded, and the call returns
exactly one frame (the codomain of `drainBuffer` is a single frame). -/
theorem drain_returns_last_frame {α : Type} (first : α) (rest : List α) :
    some (drainBuffer first rest) = (first :: rest).getLast? := by
  induction rest generalizing first with
  | nil => rfl
  | cons a t ih =>
    rw [List.getLast?_cons_cons]
    exact ih a

/-- Per-call characterisation of the inference dispatch: no `process` call
submits a job while the previous one is outstanding, and a submission
happens only on an `INFERENCE_INTERVAL`-th frame with the job slot empty
(either never filled or just collected). -/
theorem process_submit_characterization (t : ProcState) (d : Bool) :
    submitWhileOutstanding t d = false ∧
    ((process t d).2 = true →
      (t.frameCount + 1) % INFERENCE_INTERVAL = 0 ∧
      (t.inferenceFuture = none ∨ d = true)) := by
  constructor
  · unfold submitWhileOutstanding process
    split
    next h =>
      rcases h with ⟨-, -, h3⟩
      cases hfo : t.inferenceFuture with
      | none => simp [hfo]
      | some j =>
        rw [hfo] at h3
        cases d with
        | true => simp
        | false => simp [clearIfDone] at h3
    next => simp
  · intro hsub
    unfold process at hsub
    split at hsub
    next h =>
      rcases h with ⟨h1, -, h3⟩
      refine ⟨h1, ?_⟩
      cases hfo : t.inferenceFuture with
      | none => exact Or.inl rfl
      | some j =>
        cases d with
        | true => exact Or.inr rfl
        | false =>
          rw [hfo] at h3
          simp [clearIfDone] at h3
    next => simp at hsub

/-- Claim C4: across any sequence of `process` calls (any start state, any
completion history `ds`), the next call never submits a detection job while
the previous job is still outstanding, and when it does submit, the frame
counter has reached a multiple of `INFERENCE_INTERVAL` and the
outstanding-job slot is empty — either it held no job, or the held job had
completed and was collected earlier in the same call.  The slot being a
single `Option` also keeps at most one job in flight structurally. -/
theorem no_submit_while_job_outstanding (s : ProcState) (ds : List Bool)
    (d : Bool) :
    submitWhileOutstanding (processTrace s ds) d = false ∧
    ((process (processTrace s ds) d).2 = true →
      ((processTrace s ds).frameCount + 1) % INFERENCE_INTERVAL = 0 ∧
      ((processTrace s ds).inferenceFuture = none ∨ d = true)) :=
  process_submit_characterization (processTrace s ds) d

/-- Instance of C4 at a concrete run: from a fresh processor, after two
frames with no completed inference, the third call does submit — and the
characterisation holds there. -/
theorem no_submit_while_job_outstanding_instance :
    submitWhileOutstanding (processTrace ⟨0, none, 0, true⟩ [false, false])
      false = false ∧
    ((process (processTrace ⟨0, none, 0, true⟩ [false, false]) false).2 =
        true →
      ((processTrace ⟨0, none, 0, true⟩ [false, false]).frameCount + 1) %
          INFERENCE_INTERVAL = 0 ∧
      ((processTrace ⟨0, none, 0, true⟩ [false, false]).inferenceFuture =
          none ∨ false = true)) :=
  no_submit_while_job_outstanding ⟨0, none, 0, true⟩ [false, false] false

/-- Claim C5: with alerting enabled and a webhook configured, a trigger
that fires (the cooldown having lapsed since the label's last alert)
followed by a second trigger for the same label less than
`cooldown_seconds` later dispatches exactly one alert: the second returns
without action and without touching the manager's state (in particular the
label's last-fired timestamp).  A trigger spaced further apart than the
cooldown dispatches again.  The triggers' camera ids `cam1 cam2 cam3` are
arbitrary and independent: the cooldown clock keys on the label alone, so
the same label on different cameras shares it. -/
theorem cooldown_single_dispatch (st : NotifState) (lbl : String)
    (c1 c2 c3 : ℚ) (cam1 cam2 cam3 : String) (t1 t2 t3 : ℚ)
    (hEnabled : st.enabled = true) (hUrl : st.webhookUrl ≠ "")
    (hFire : st.cooldownSeconds ≤ t1 - lastAlertTime st lbl)
    (hClose : t2 - t1 < st.cooldownSeconds)
    (hFar : st.cooldownSeconds < t3 - t1) :
    (sendAlert st lbl c1 cam1 t1).2 = some (lbl, c1, cam1) ∧
    (sendAlert (sendAlert st lbl c1 cam1 t1).1 lbl c2 cam2 t2).2 = none ∧
    (sendAlert (sendAlert st lbl c1 cam1 t1).1 lbl c2 cam2 t2).1 =
      (sendAlert st lbl c1 cam1 t1).1 ∧
    (sendAlert (sendAlert st lbl c1 cam1 t1).1 lbl c3 cam3 t3).2 =
      some (lbl, c3, cam3) := by
  have hn1 : ¬ (t1 - lastAlertTime st lbl < st.cooldownSeconds) :=
    not_lt.mpr hFire
  have hn3 : ¬ (t3 - t1 < st.cooldownSeconds) :=
    not_lt.mpr (le_of_lt hFar)
  refine ⟨?_, ?_, ?_, ?_⟩ <;>
    simp [sendAlert, lastAlertTime_after_set, hEnabled, hUrl, hn1, hClose,
      hn3]

/-- Instance of C5: cooldown 60s, triggers for label "person" at t=100
(fires), t=130 from another camera (throttled, state untouched) and t=161
(fires again). -/
theorem cooldown_single_dispatch_instance :
    (sendAlert ⟨true, "hook", 60, []⟩ "person" (9/10) "0" 100).2 =
      some ("person", 9/10, "0") ∧
    (sendAlert (sendAlert ⟨true, "hook", 60, []⟩ "person" (9/10) "0" 100).1
      "person" (8/10) "1" 130).2 = none ∧
    (sendAlert (sendAlert ⟨true, "hook", 60, []⟩ "person" (9/10) "0" 100).1
      "person" (8/10) "1" 130).1 =
      (sendAlert ⟨true, "hook", 60, []⟩ "person" (9/10) "0" 100).1 ∧
    (sendAlert (sendAlert ⟨true, "hook", 60, []⟩ "person" (9/10) "0" 100).1
      "person" (7/10) "2" 161).2 = some ("person", 7/10, "2") :=
  cooldown_single_dispatch ⟨true, "hook", 60, []⟩ "person"
    (9/10) (8/10) (7/10) "0" "1" "2" 100 130 161
    rfl (by simp) (by norm_num [lastAlertTime, List.lookup])
    (by norm_num) (by norm_num)

/-- Claim C6: on a lifecycle pass at processing time `now`, an entry
survives the cleanup exactly when it was present and its last-seen time is
within the 10-second staleness window (so an entry updated at
`staleness_window - epsilon` stays, and every entry older than the window
is removed); and the pass only ever deletes — every surviving entry was
already present, so a removed entry is never resurrected by the cleanup
(re-detecting the same identifier later builds a fresh entry with a fresh
row id through the new-track branch). -/
theorem stale_tracks_removed_fresh_kept (now : ℚ)
    (tracks : List (String × TrackMem)) (p : String × TrackMem) :
    (p ∈ cleanupStale now tracks ↔
      (p ∈ tracks ∧ ¬ (now - p.2.lastSeen > 10))) ∧
    (∀ q ∈ cleanupStale now tracks, q ∈ tracks) := by
  constructor
  · simp [cleanupStale, isStale, List.mem_filter]
  · intro q hq
    exact (List.mem_filter.mp hq).1

/-- Instance of C6: at `now = 100`, an entry last seen at 91 (9s ago,
window minus 1s) is kept and one last seen at 85 (15s ago) is gone. -/
theorem stale_tracks_removed_fresh_kept_instance :
    (("1", (⟨1, "person", 1/2, 91⟩ : TrackMem)) ∈
        cleanupStale 100 [("1", ⟨1, "person", 1/2, 91⟩),
          ("2", ⟨2, "car", 1/2, 85⟩)] ↔
      (("1", (⟨1, "person", 1/2, 91⟩ : TrackMem)) ∈
          [("1", (⟨1, "person", 1/2, 91⟩ : TrackMem)),
            ("2", ⟨2, "car", 1/2, 85⟩)] ∧
        ¬ ((100 : ℚ) - (⟨1, "person", 1/2, 91⟩ : TrackMem).lastSeen > 10))) ∧
    (∀ q ∈ cleanupStale 100 [("1", (⟨1, "person", 1/2, 91⟩ : TrackMem)),
        ("2", ⟨2, "car", 1/2, 85⟩)],
      q ∈ [("1", (⟨1, "person", 1/2, 91⟩ : TrackMem)),
        ("2", ⟨2, "car", 1/2, 85⟩)]) :=
  stale_tracks_removed_fresh_kept 100
    [("1", ⟨1, "person", 1/2, 91⟩), ("2", ⟨2, "car", 1/2, 85⟩)]
    ("1", ⟨1, "person", 1/2, 91⟩)

/-- Claim C9: the persisted record's numeric track key parses the tracker's
token as a Python integer when that succeeds, and otherwise falls back to
`hash(token) % 100000` — for any integer-valued hash function the fallback
key lies in the fixed non-negative range `[0, 100000)`; and the conversion
is a function of the token, so the same token always yields the same
key. -/
theorem track_key_parse_or_bounded_hash (h : String → ℤ) (token : String) :
    (∀ n, pythonInt? token = some n → dbTrackId h token = n) ∧
    (pythonInt? token = none →
      0 ≤ dbTrackId h token ∧ dbTrackId h token < 100000) ∧
    (∀ token2, token2 = token → dbTrackId h token2 = dbTrackId h token) := by
  refine ⟨?_, ?_, ?_⟩
  · intro n hn
    simp [dbTrackId, hn]
  · intro hn
    simp only [dbTrackId, hn]
    exact ⟨Int.emod_nonneg _ (by norm_num), Int.emod_lt_of_pos _ (by norm_num)⟩
  · intro token2 ht
    rw [ht]

/-- Instance of C9 on a non-numeric token with a negative hash value: the
fallback path still produces a key in `[0, 100000)`. -/
theorem track_key_parse_or_bounded_hash_instance :
    (∀ n, pythonInt? "track-uuid" = some n →
      dbTrackId (fun _ => -7) "track-uuid" = n) ∧
    (pythonInt? "track-uuid" = none →
      0 ≤ dbTrackId (fun _ => -7) "track-uuid" ∧
      dbTrackId (fun _ => -7) "track-uuid" < 100000) ∧
    (∀ token2, token2 = "track-uuid" →
      dbTrackId (fun _ => -7) token2 =
      dbTrackId (fun _ => -7) "track-uuid") :=
  track_key_parse_or_bounded_hash (fun _ => -7) "track-uuid"

/-- Claim C10: when the recorder is not in the recording state or has no
encoder subprocess, `push_frame` returns at the initial guard: no bytes are
written, no restart or stop is attempted, and the recorder state is
returned unchanged, whatever the pipe would have done. -/
theorem push_frame_noop_when_not_recording (s : RecorderState)
    (ev : PipeEvent) (h : s.recording = false ∨ s.process = none) :
    pushFrame s ev = (s, false) := by
  unfold pushFrame
  rw [if_pos h]

/-- Instance of C10: a constructed-but-never-started recorder drops a frame
with no state change. -/
theorem push_frame_noop_when_not_recording_instance :
    pushFrame ⟨"0", false, false, none, 1, []⟩ PipeEvent.ok =
      (⟨"0", false, false, none, 1, []⟩, false) :=
  push_frame_noop_when_not_recording ⟨"0", false, false, none, 1, []⟩
    PipeEvent.ok (Or.inl rfl)

/-- Claim C7 counterexample: an exception in `pc.createOffer()` /
`pc.setLocalDescription(offer)` — the part of the signaling attempt that
runs before `connect`'s `try` block — escapes the iteration (and `run`'s
`while` body catches nothing but `KeyboardInterrupt`), so it terminates the
controller loop instead of being caught and logged. -/
theorem uncaught_offer_exception_kills_loop :
    loopIteration ConnState.failed SignalOutcome.localError none =
      Except.error () := rfl

/-- Claim C7 as amended: any exception raised inside the two guarded
regions of an iteration — the HTTP signaling exchange inside `connect`'s
`try` block and the DDIL fallback check (whose failures are subsumed in the
`frame` input, its whole block sitting in `try/except Exception`) — is
caught and logged and the loop proceeds; only an exception in the local
offer-creation steps, which run outside any handler, terminates the
loop. -/
theorem guarded_exceptions_do_not_kill_loop (st : ConnState)
    (sig : SignalOutcome) (frame : Option Nat)
    (h : sig ≠ SignalOutcome.localError) :
    iterationSurvives st sig frame = true := by
  cases sig with
  | accepted => cases st <;> rfl
  | non200 => cases st <;> rfl
  | requestError => cases st <;> rfl
  | localError => exact absurd rfl h

/-- Instance of the amended C7: a network failure of the signaling request
while disconnected is survived. -/
theorem guarded_exceptions_do_not_kill_loop_instance :
    iterationSurvives ConnState.failed SignalOutcome.requestError
      (some 5000) = true :=
  guarded_exceptions_do_not_kill_loop ConnState.failed
    SignalOutcome.requestError (some 5000) (by decide)

/-- Claim C8: in a disconnected state, an iteration whose signaling attempt
completes with failure (`connect` returned `False`) runs exactly one DDIL
motion check, and it appends exactly one buffered-motion line iff the
frame's motion ratio over the downsampled 320x240 frame exceeds 5% (never
more than one); and an iteration in a connected or connecting state runs no
motion check and writes no line. -/
theorem ddil_motion_check_per_failed_attempt (st : ConnState)
    (sig : SignalOutcome) (fg : Nat)
    (hDisc : isDisconnected st = true)
    (hFail : connectResult sig = Except.ok false) :
    loopIteration st sig (some fg) =
      Except.ok ⟨1, ddilMotionCheck (some fg), false⟩ ∧
    (ddilMotionCheck (some fg) = 1 ↔ motionRatio fg > 5 / 100) ∧
    ddilMotionCheck (some fg) ≤ 1 ∧
    (∀ st2 sig2 fr2, isDisconnected st2 = false →
      loopIteration st2 sig2 fr2 = Except.ok ⟨0, 0, false⟩) := by
  refine ⟨?_, ?_, ?_, ?_⟩
  · simp [loopIteration, hDisc, hFail]
  · by_cases hc : motionRatio fg > 5 / 100 <;> simp [ddilMotionCheck, hc]
  · by_cases hc : motionRatio fg > 5 / 100 <;> simp [ddilMotionCheck, hc]
  · intro st2 sig2 fr2 h2
    simp [loopIteration, h2]

/-- Instance of C8: a never-yet-connected camera whose offer the server
rejects runs one motion check on a frame with 7680 of 76800 foreground
pixels (ratio 10%), which exceeds 5%. -/
theorem ddil_motion_check_per_failed_attempt_instance :
    loopIteration ConnState.new SignalOutcome.non200 (some 7680) =
      Except.ok ⟨1, ddilMotionCheck (some 7680), false⟩ ∧
    (ddilMotionCheck (some 7680) = 1 ↔ motionRatio 7680 > 5 / 100) ∧
    ddilMotionCheck (some 7680) ≤ 1 ∧
    (∀ st2 sig2 fr2, isDisconnected st2 = false →
      loopIteration st2 sig2 fr2 = Except.ok ⟨0, 0, false⟩) :=
  ddil_motion_check_per_failed_attempt ConnState.new SignalOutcome.non200
    7680 rfl rfl

/-- Claim C2, evaluated at its failing input: a broken pipe hits
`push_frame` on a freshly started recorder (recording, not stopping,
encoder pid 1).  The supervisor does stop the dead subprocess (pid 1 is
terminated) and immediately starts a fresh one for the same camera (pid 2,
recording again) — but `stop()` set `self.stopping = True` and `start()`
never clears it, so after the recovery the stopping flag is `true`, not
`false` as the spec requires; consequently a second broken pipe is
swallowed by the `if not self.stopping` guard and the recorder is left with
a dead encoder and no restart. -/
theorem broken_pipe_restart_leaves_stopping_true :
    ((pushFrame recorder0 PipeEvent.brokenPipe).1.terminated = [1] ∧
      (pushFrame recorder0 PipeEvent.brokenPipe).1.process = some 2 ∧
      (pushFrame recorder0 PipeEvent.brokenPipe).1.recording = true ∧
      (pushFrame recorder0 PipeEvent.brokenPipe).1.cameraId =
        recorder0.cameraId) ∧
    (pushFrame recorder0 PipeEvent.brokenPipe).1.stopping = true ∧
    (pushFrame (pushFrame recorder0 PipeEvent.brokenPipe).1
      PipeEvent.brokenPipe).1 =
      (pushFrame recorder0 PipeEvent.brokenPipe).1 := by
  decide

/-- The tracker token "7" parses as the Python integer 7. -/
theorem pythonInt7 : pythonInt? "7" = some 7 := by decide

/-- Claim C1, evaluated at its failing input: track "7" is detected with
confidence 1/2 at t=0 and again with confidence 9/10 at t=2.  Exactly one
event record is created (with numeric key 7), but because the
`db_manager.update_event` call for continuing tracks is commented out — and
the in-memory `max_conf` is never raised either — the persisted `max_conf`
stays at the first detection's 1/2, strictly below the maximum confidence
9/10 observed across the track's lifetime. -/
theorem max_conf_stays_at_first_detection :
    (lifecyclePass zeroHash
        (lifecyclePass zeroHash initialPipeline [("7", "person", 1/2)] 0)
        [("7", "person", 9/10)] 2).dbRows.map
      (fun r => (r.1, r.2.trackId, r.2.maxConf)) = [(1, 7, 1/2)] ∧
    (lifecyclePass zeroHash
        (lifecyclePass zeroHash initialPipeline [("7", "person", 1/2)] 0)
        [("7", "person", 9/10)] 2).activeTracks.map
      (fun p => (p.1, p.2.maxConf, p.2.lastSeen)) = [("7", 1/2, 2)] ∧
    ((1 : ℚ)/2 < 9/10) := by
  refine ⟨?_, ?_, by norm_num⟩ <;>
    norm_num [lifecyclePass, processConfirmedTrack, initialPipeline,
      zeroHash, dbTrackId, pythonInt7, cleanupStale, isStale, setAssoc,
      List.lookup]

end Aegis
